import Mathlib

/-!
Shallow embedding of the pc-reviewer MCP server (src/src/mcp_server.py and
src/src/tools/proc_tools.py, src/src/tools/fs_tools.py) and proofs about
its RPC dispatch core, transport adapters and tool helpers.

JSON values are modelled by the inductive type Json; Python exceptions are
modelled by Except String, the error string standing for str(e).  Numbers
carry a rational payload (JSON has no separate integer type; float rounding
in proc_tools is modelled over the rationals).
-/

namespace McpServer

/-- A parsed JSON value, as produced by json.loads. -/
inductive Json where
  | null
  | bool (b : Bool)
  | num (q : Rat)
  | str (s : String)
  | arr (elems : List Json)
  | obj (entries : List (String × Json))

/-- Python dict lookup d[k] on a parsed-JSON object; parsed objects have
distinct keys, so first-match lookup is the dict lookup. -/
def dictGet (kvs : List (String × Json)) (k : String) : Json :=
  match kvs.lookup k with
  | some v => v
  | none => Json.null

/-- Python d.get(k): None (modelled as Json.null) when the key is absent;
raises AttributeError when the receiver is not a dict. -/
def pyGet (j : Json) (k : String) : Except String Json :=
  match j with
  | .obj kvs => .ok (dictGet kvs k)
  | _ => .error "AttributeError: object has no attribute get"

/-- Python subscript d[k] with a string key: KeyError when the key is absent
from a dict, TypeError when the receiver is not a dict. -/
def pySubscript (j : Json) (k : String) : Except String Json :=
  match j with
  | .obj kvs =>
    match kvs.lookup k with
    | some v => .ok v
    | none => .error (String.append "KeyError: " k)
  | _ => .error "TypeError: object is not subscriptable"

/-- Python truthiness of a parsed JSON value. -/
def pyTruthy : Json → Bool
  | .null => false
  | .bool b => b
  | .num q => q != 0
  | .str s => !s.isEmpty
  | .arr xs => !xs.isEmpty
  | .obj kvs => !kvs.isEmpty

/-- Whether a parsed JSON value is hashable in Python (lists and dicts are
not, so using one as a dict-membership probe raises TypeError). -/
def jsonHashable : Json → Bool
  | .arr _ => false
  | .obj _ => false
  | _ => true

/-- Python f-string formatting of a scalar value, as used by the
message "unknown tool: ..." (only ever applied to hashable values; the
formatting of non-integral numbers is approximate, no claim depends on
it). -/
def pyFormat : Json → String
  | .null => "None"
  | .bool true => "True"
  | .bool false => "False"
  | .num q => toString q
  | .str s => s
  | .arr _ => "[...]"
  | .obj _ => "\x7b...\x7d"

/-- The keys of the TOOLS registry of mcp_server.py, in registration order. -/
def TOOL_NAMES : List String :=
  ["fs.du", "fs.bigfiles", "pkg.caches", "docker.df", "proc.top"]

/-- list(TOOLS.keys()) as a JSON value. -/
def availableJson : Json := .arr (TOOL_NAMES.map Json.str)

/-- A success envelope: a dict with keys id and result, in that order. -/
def respOk (mid result : Json) : Json :=
  .obj [("id", mid), ("result", result)]

/-- An error envelope as built at every error site of _process_rpc_req:
a message plus the full available list. -/
def respErr (mid : Json) (msg : String) : Json :=
  .obj [("id", mid),
        ("error", .obj [("message", .str msg), ("available", availableJson)])]

/-- The parse-error envelope sent by the transports for unparsable payloads
(note: no available field at this transport-level site). -/
def invalidJsonEnv : Json :=
  .obj [("id", .null), ("error", .obj [("message", .str "invalid json")])]

/-- The invocation side of the TOOLS registry: each registered name maps to a
callable taking the arguments object and returning a JSON value or raising.
The set of registered names is the fixed TOOL_NAMES; the callables shell out
to the host, so they are kept abstract here. -/
def ToolImpls := String → Json → Except String Json

/-- The body of the try block of _process_rpc_req (mcp_server.py lines
93-119): dispatch on method, returning the envelope, or raising (the .error
case) an exception that the except clause will turn into an error envelope.
Lifecycle methods and tools.list never consult the request further;
tools.call evaluates the name subscript of the params subscript, then the
arguments field defaulted to an empty dict when absent or falsy, then checks
registry membership before invoking the tool. -/
def rpcTryBody (tools : ToolImpls) (kvs : List (String × Json))
    (mid method : Json) : Except String Json :=
  match method with
  | Json.str "initialize" =>
    .ok (respOk mid (.obj [("capabilities", .obj [])]))
  | Json.str "shutdown" =>
    .ok (respOk mid .null)
  | Json.str "exit" =>
    .ok (respOk mid .null)
  | Json.str "tools.list" =>
    .ok (respOk mid (.obj [("tools", availableJson)]))
  | Json.str "tools.call" =>
    match pySubscript (.obj kvs) "params" with
    | .error e => .error e
    | .ok ps =>
      match pySubscript ps "name" with
      | .error e => .error e
      | .ok name =>
        match pyGet ps "arguments" with
        | .error e => .error e
        | .ok rawArgs =>
          let args := if pyTruthy rawArgs then rawArgs else Json.obj []
          if jsonHashable name then
            match name with
            | Json.str s =>
              if TOOL_NAMES.contains s then
                match tools s args with
                | .error e => .error e
                | .ok data =>
                  .ok (respOk mid (.obj [("name", name), ("data", data)]))
              else
                .ok (respErr mid (String.append "unknown tool: " s))
            | _ =>
              .ok (respErr mid (String.append "unknown tool: " (pyFormat name)))
          else
            .error "TypeError: unhashable type"
  | _ =>
    .ok (respErr mid "unknown method")

/-- The processor _process_rpc_req (mcp_server.py lines 88-122).  The id and
method are extracted with req.get before the try block, so a non-dict
request raises AttributeError to the caller (the .error case); for dict
requests the exceptions of the try block are caught and turned into an
error envelope carrying the extracted id. -/
def _process_rpc_req (tools : ToolImpls) (req : Json) : Except String Json :=
  match req with
  | .obj kvs =>
    let mid := dictGet kvs "id"
    let method := dictGet kvs "method"
    .ok (match rpcTryBody tools kvs mid method with
         | .ok resp => resp
         | .error e => respErr mid e)
  | _ => .error "AttributeError: object has no attribute get"

/-- Whether a response object has the given top-level key. -/
def hasKey (j : Json) (k : String) : Bool :=
  match j with
  | .obj kvs => (kvs.lookup k).isSome
  | _ => false

/-- The id field of a response object (null when absent). -/
def jsonIdOf (j : Json) : Json :=
  match j with
  | .obj kvs => dictGet kvs "id"
  | _ => .null

/-- The error field of a response object (null when absent). -/
def errObj (j : Json) : Json :=
  match j with
  | .obj kvs => dictGet kvs "error"
  | _ => .null

/-- Whether a parsed JSON value is an object. -/
def jsonIsObj : Json → Bool
  | .obj _ => true
  | _ => false

/-- A stub tool registry used to instantiate theorems at concrete inputs. -/
def toolsStub : ToolImpls := fun _ _ => .ok .null

/-! ## WebSocket transport adapter (mcp_socket, mcp_server.py lines 49-84) -/

/-- One inbound event on the duplex connection: either the remote closed
(WebSocketDisconnect at the receive step) or a text message, carried here
together with the outcome of json.loads on it. -/
inductive WsEvent where
  | disconnect
  | msg (parsed : Except String Json)

/-- How the read loop of the connection handler ended. -/
inductive WsExit where
  | disconnected
  | crashed
  | pending
deriving DecidableEq, Repr

/-- Lines 79-82 of mcp_server.py: after processing, if the response carries
an error without an available field, add the full tool list.  The responses
reaching this code always have an object-valued error field, produced by
respErr or by the line-76 fallback. -/
def ensureAvailable (resp : Json) : Json :=
  match resp with
  | .obj entries =>
    match entries.lookup "error" with
    | some (Json.obj errEntries) =>
      if (errEntries.lookup "available").isSome then resp
      else
        Json.obj (entries.map (fun kv =>
          if kv.1 == "error" then
            ("error", Json.obj (errEntries ++ [("available", availableJson)]))
          else kv))
    | _ => resp
  | _ => resp

/-- The mcp_socket read loop, run over a finite trace of inbound events.
Returns the texts sent on the socket (as parsed JSON values; send_text
serializes them) and how the loop ended.  Per the source: a
WebSocketDisconnect at receive breaks the loop; a json.loads failure sends
the invalid json envelope and continues; a parsed message is run through
_process_rpc_req inside a try whose fallback builds an error envelope from
the req.get extraction of the id — but that very req.get call on line 68
sits outside any try, so a parsed non-object message raises AttributeError
and crashes the handler. -/
def mcp_socket (tools : ToolImpls) : List WsEvent → List Json × WsExit
  | [] => ([], .pending)
  | .disconnect :: _ => ([], .disconnected)
  | .msg (.error _) :: rest =>
    let r := mcp_socket tools rest
    (invalidJsonEnv :: r.1, r.2)
  | .msg (.ok req) :: rest =>
    match req with
    | .obj kvs =>
      let mid := dictGet kvs "id"
      let resp :=
        match _process_rpc_req tools (.obj kvs) with
        | .ok r => r
        | .error e => respErr mid e
      let r := mcp_socket tools rest
      (ensureAvailable resp :: r.1, r.2)
    | _ => ([], .crashed)

/-! ## SSE stream transport (mcp_sse_post, mcp_server.py lines 196-219) -/

/-- A registered SSE subscriber: an asyncio.Queue of pending serialized
events (kept here as parsed values; json.dumps is applied at send time).
maxsize = 0 means unbounded, matching asyncio.Queue; broken models a queue
whose put_nowait raises something other than QueueFull. -/
structure Subscriber where
  maxsize : Nat
  queue : List Json
  broken : Bool

/-- The full() test of asyncio.Queue: a queue with positive maxsize that
holds at least maxsize items. -/
def queueFull (s : Subscriber) : Bool :=
  s.maxsize != 0 && decide (s.maxsize ≤ s.queue.length)

/-- The fan-out loop of mcp_sse_post (lines 210-218): best-effort
put_nowait per subscriber; QueueFull drops the event for that subscriber
only; any other enqueue error deregisters that subscriber. -/
def ssePublish (text : Json) : List Subscriber → List Subscriber
  | [] => []
  | s :: rest =>
    if s.broken then ssePublish text rest
    else if queueFull s then s :: ssePublish text rest
    else { s with queue := s.queue ++ [text] } :: ssePublish text rest

/-- The publish side mcp_sse_post: parse failure returns the invalid json
envelope with status 400 and touches no subscriber; otherwise the request
runs through _process_rpc_req (unguarded — a raise there escapes the
handler, the .error case), the response is published to every registered
subscriber and the very same response is returned synchronously with
status 200. -/
def mcp_sse_post (tools : ToolImpls) (payload : Except String Json)
    (subs : List Subscriber) :
    Except String ((Json × Nat) × List Subscriber) :=
  match payload with
  | .error _ => .ok ((invalidJsonEnv, 400), subs)
  | .ok req =>
    match _process_rpc_req tools req with
    | .error e => .error e
    | .ok resp => .ok ((resp, 200), ssePublish resp subs)

/-! ## proc_tools.top_procs (src/src/tools/proc_tools.py) and the proc.top
registry entry -/

/-- The whitespace characters stripped by Python str.strip(). -/
def pyIsSpace (c : Char) : Bool :=
  c == ' ' || c == '\t' || c == '\n' || c == '\r' || c == '\x0b' || c == '\x0c'

/-- Python str.strip(): drop whitespace from both ends. -/
def pyStrip (cs : List Char) : List Char :=
  ((cs.dropWhile pyIsSpace).reverse.dropWhile pyIsSpace).reverse

/-- Numeric value of a list of ASCII digits. -/
def digitsToNat (cs : List Char) : Nat :=
  cs.foldl (fun acc c => acc * 10 + (c.toNat - 48)) 0

/-- Python int(s) on a string: strip whitespace, optional sign, decimal
digits (digit-group underscores are not modelled); anything else raises
ValueError. -/
def pyIntOfString (s : String) : Except String Int :=
  let t := pyStrip s.data
  let core : List Char → Except String Int := fun ds =>
    if !ds.isEmpty && ds.all Char.isDigit then .ok (digitsToNat ds)
    else .error "ValueError: invalid literal for int"
  match t with
  | '+' :: ds => core ds
  | '-' :: ds => (core ds).map Neg.neg
  | ds => core ds

/-- Python int(x) truncates toward zero on numbers (t-division of the
reduced numerator by the denominator), maps bools to 0/1, parses strings,
and raises TypeError otherwise. -/
def pyInt : Json → Except String Int
  | .num q => .ok (Int.tdiv q.num q.den)
  | .bool b => .ok (if b then 1 else 0)
  | .str s => pyIntOfString s
  | _ => .error "TypeError: int() argument"

/-- One entry of the psutil snapshot: the fields read by top_procs.  The
percent fields may be None; a process that disappears mid-iteration raises,
which is modelled by wrapping entries in Option at the snapshot level. -/
structure RawProc where
  pid : Int
  name : String
  memory_percent : Option Rat
  cpu_percent : Option Rat
  cmdline : Option (List String)

/-- One record returned by top_procs. -/
structure ProcInfo where
  pid : Int
  name : String
  mem_pct : Rat
  cpu_pct : Rat
  cmd : String

/-- Floor of a rational, computed on the reduced fraction. -/
def ratFloor (q : Rat) : Int := Int.fdiv q.num q.den

/-- Python round(x, 2) over the rationals, rounding half toward positive
infinity (Python itself rounds half to even; no claim depends on the tie
rule). -/
def round2 (x : Rat) : Rat := (ratFloor (x * 100 + 1 / 2) : Rat) / 100

/-- The record built for one process (proc_tools.py lines 20-28): percent
fields default to 0 when None, the command line is joined with spaces and
truncated to 240 characters. -/
def mkProcInfo (p : RawProc) : ProcInfo :=
  { pid := p.pid
    name := p.name
    mem_pct := round2 (p.memory_percent.getD 0)
    cpu_pct := round2 (p.cpu_percent.getD 0)
    cmd := (String.intercalate " " (p.cmdline.getD [])).take 240 }

/-- The sort order of line 31 of proc_tools.py, key (-mem_pct, -cpu_pct):
a comes no later than b when a has strictly larger mem_pct, or equal
mem_pct and at least the cpu_pct of b. -/
def procKeyLE (a b : ProcInfo) : Bool :=
  decide (b.mem_pct < a.mem_pct) ||
    (decide (a.mem_pct = b.mem_pct) && decide (b.cpu_pct ≤ a.cpu_pct))

/-- Python list slicing up to an int n: a nonnegative n keeps the first
n elements; a negative n drops the last abs(n) elements. -/
def pySliceTo (l : List ProcInfo) (n : Int) : List ProcInfo :=
  if 0 ≤ n then l.take n.toNat
  else l.take (l.length - (-n).toNat)

/-- top_procs (proc_tools.py lines 15-32) over a snapshot of the host
process table: build a record per process that does not raise, sort stably
by descending (mem_pct, cpu_pct), keep the first limit records. -/
def top_procs (snapshot : List (Option RawProc)) (limit : Int) :
    List ProcInfo :=
  pySliceTo
    ((snapshot.filterMap (fun o => o.map mkProcInfo)).mergeSort procKeyLE)
    limit

/-- Serialization of one record as the JSON object sent to clients. -/
def ProcInfo.toJson (r : ProcInfo) : Json :=
  .obj [("pid", .num (r.pid : Rat)), ("name", .str r.name),
        ("mem_pct", .num r.mem_pct), ("cpu_pct", .num r.cpu_pct),
        ("cmd", .str r.cmd)]

/-- The proc.top entry of the TOOLS registry (mcp_server.py line 38):
lambda params: top_procs(int(params.get("limit") or 25)). -/
def procTopTool (snapshot : List (Option RawProc)) (params : Json) :
    Except String Json :=
  match pyGet params "limit" with
  | .error e => .error e
  | .ok v =>
    match pyInt (if pyTruthy v then v else Json.num 25) with
    | .error e => .error e
    | .ok n => .ok (Json.arr ((top_procs snapshot n).map ProcInfo.toJson))

/-- The invocation function of the TOOLS registry: proc.top is modelled
concretely; the four shelling-out tools are opaque collaborators. -/
def TOOLS (snapshot : List (Option RawProc)) (other : ToolImpls) : ToolImpls :=
  fun name params =>
    if name = "proc.top" then procTopTool snapshot params else other name params

/-- The top-level keys of a JSON object. -/
def jsonKeys : Json → List String
  | .obj kvs => kvs.map Prod.fst
  | _ => []

/-! ## fs_tools (src/src/tools/fs_tools.py): _sanitize_min_size and
bigfiles -/

/-- The unit letters accepted by the -size pattern: c, b, k, m, g in either
case. -/
def isSizeUnit (c : Char) : Bool :=
  c == 'c' || c == 'C' || c == 'b' || c == 'B' || c == 'k' || c == 'K' ||
    c == 'm' || c == 'M' || c == 'g' || c == 'G'

/-- re.fullmatch of the pattern of fs_tools.py line 126: an optional plus,
one or more digits, an optional single unit letter (the digit class of the
regex is taken as the ASCII digits). -/
def matchesMinSize (cs : List Char) : Bool :=
  let body := match cs with
    | '+' :: rest => rest
    | _ => cs
  let ds := body.takeWhile Char.isDigit
  let rest := body.dropWhile Char.isDigit
  !ds.isEmpty &&
    (rest.isEmpty || (rest.length == 1 && isSizeUnit (rest.headD ' ')))

/-- The sanitizer _sanitize_min_size (fs_tools.py lines 118-128): strip the
input and return it when it matches the -size pattern, else fall back to
"+200M". -/
def _sanitize_min_size (s : String) : String :=
  let t := pyStrip s.data
  if matchesMinSize t then String.mk t else "+200M"

/-- Dropping from the right: reverse, dropWhile, reverse. -/
def rdropW (p : α → Bool) (l : List α) : List α :=
  (l.reverse.dropWhile p).reverse

/-- The safe characters of shlex.quote: ASCII word characters plus at-sign,
percent, plus, equals, colon, comma, dot, slash and dash. -/
def shlexSafeChar (c : Char) : Bool :=
  c.isAlphanum || c == '_' || c == '@' || c == '%' || c == '+' || c == '=' ||
    c == ':' || c == ',' || c == '.' || c == '/' || c == '-'

/-- shlex.quote: empty becomes a pair of single quotes, safe strings pass
through, anything else is single-quoted with embedded single quotes
rewritten. -/
def shlexQuote (s : String) : String :=
  if s.isEmpty then "\x27\x27"
  else if s.data.all shlexSafeChar then s
  else
    "\x27" ++
      String.mk (s.data.flatMap fun c =>
        if c == '\x27' then "\x27\"\x27\"\x27".data else [c]) ++
      "\x27"

/-- Python str.split() with no argument: split on whitespace runs, no empty
fields. -/
def pySplitWs (s : String) : List String :=
  ((s.data.splitOnP pyIsSpace).filter (fun w => !w.isEmpty)).map String.mk

/-- Python str.splitlines() on newline-separated command output (the
carriage-return and other exotic line breaks of splitlines are not produced
by the shell pipeline and are not modelled): newline-separated fields, with
no final empty field for a trailing newline. -/
def pySplitlines (s : String) : List String :=
  let parts := s.data.splitOnP (· == '\n')
  let parts := match parts.getLast? with
    | some [] => parts.dropLast
    | _ => parts
  parts.map String.mk

/-- One row of the bigfiles result. -/
structure BigfileItem where
  path : String
  size : String

/-- The parse loop of bigfiles (fs_tools.py lines 146-152): keep ls lines
with at least 9 whitespace-separated fields, size from field 4, path from
fields 8 onward rejoined with single spaces. -/
def parseBigfiles (out : String) : List BigfileItem :=
  (pySplitlines out).filterMap fun line =>
    let parts := pySplitWs line
    if parts.length ≥ 9 then
      some { path := String.intercalate " " (parts.drop 8),
             size := parts.getD 4 "" }
    else none

/-- The host environment bigfiles runs against: path expansion
(expanduser, expandvars, abspath), the isdir test, and the sh helper of
common.py, which returns captured stdout or raises CalledProcessError. -/
structure FsEnv where
  expand : String → String
  isdir : String → Bool
  shell : String → Except String String

/-- The find, xargs ls, head pipeline string of fs_tools.py lines
143-145. -/
def bigfilesCmd (targetQ sizeArg : String) (limitN : Int) : String :=
  "find " ++ targetQ ++ " -type f -size " ++ sizeArg ++
    " -print0 2>/dev/null | xargs -0 ls -laSh 2>/dev/null | head -n " ++
    toString limitN

/-- bigfiles (fs_tools.py lines 131-153), returning the result (or the
exception escaping from sh) together with the list of shell commands
issued.  A non-directory expanded path returns the empty list before any
command runs; int(limit) on an int argument cannot raise, so the limit
clamp is max(1, min(limit, 10000)). -/
def bigfiles (env : FsEnv) (path min_size : String) (limit : Int) :
    Except String (List BigfileItem) × List String :=
  let target := env.expand path
  if !env.isdir target then (.ok [], [])
  else
    let sizeArg := _sanitize_min_size min_size
    let limitN : Int := max 1 (min limit 10000)
    let cmd := bigfilesCmd (shlexQuote target) sizeArg limitN
    match env.shell cmd with
    | .error e => (.error e, [cmd])
    | .ok out => (.ok (parseBigfiles out), [cmd])

/-! ## Theorems -/

theorem jsonIdOf_respOk (mid r : Json) : jsonIdOf (respOk mid r) = mid := rfl

theorem jsonIdOf_respErr (mid : Json) (m : String) :
    jsonIdOf (respErr mid m) = mid := rfl

theorem hasKey_respOk_result (mid r : Json) :
    hasKey (respOk mid r) "result" = true := rfl

theorem hasKey_respErr_error (mid : Json) (m : String) :
    hasKey (respErr mid m) "error" = true := rfl

/-- Every outcome of the try body is a success envelope for the extracted id,
an error envelope for the extracted id, or a raised exception. -/
theorem rpcTryBody_shape (tools : ToolImpls) (kvs : List (String × Json))
    (mid method : Json) :
    (∃ r, rpcTryBody tools kvs mid method = .ok (respOk mid r)) ∨
    (∃ m, rpcTryBody tools kvs mid method = .ok (respErr mid m)) ∨
    (∃ e, rpcTryBody tools kvs mid method = .error e) := by
  unfold rpcTryBody
  dsimp only
  repeat' split
  all_goals first
    | exact Or.inl ⟨_, rfl⟩
    | exact Or.inr (Or.inl ⟨_, rfl⟩)
    | exact Or.inr (Or.inr ⟨_, rfl⟩)

/-- On any dict request, _process_rpc_req returns (never raises) either a
success envelope or an error envelope, both carrying the request id. -/
theorem process_shape (tools : ToolImpls) (kvs : List (String × Json)) :
    (∃ r, _process_rpc_req tools (.obj kvs) =
        .ok (respOk (dictGet kvs "id") r)) ∨
    (∃ m, _process_rpc_req tools (.obj kvs) =
        .ok (respErr (dictGet kvs "id") m)) := by
  rcases rpcTryBody_shape tools kvs (dictGet kvs "id") (dictGet kvs "method")
    with ⟨r, hr⟩ | ⟨m, hm⟩ | ⟨e, he⟩
  · exact Or.inl ⟨r, by unfold _process_rpc_req; dsimp only; rw [hr]⟩
  · exact Or.inr ⟨m, by unfold _process_rpc_req; dsimp only; rw [hm]⟩
  · exact Or.inr ⟨e, by unfold _process_rpc_req; dsimp only; rw [he]⟩

/-- C1 (amended): for every parsed request that is a dict, _process_rpc_req
returns — never raises — a response object that carries the request id and
exactly one of result/error; a parsed request that is not a dict instead
raises AttributeError at the req.get extraction, before the try block. -/
theorem C1_process_total_on_dicts (tools : ToolImpls)
    (kvs : List (String × Json)) :
    ∃ out, _process_rpc_req tools (.obj kvs) = .ok out ∧
      jsonIdOf out = dictGet kvs "id" ∧
      (hasKey out "result" != hasKey out "error") = true := by
  rcases process_shape tools kvs with ⟨r, hr⟩ | ⟨m, hm⟩
  · exact ⟨_, hr, rfl, rfl⟩
  · exact ⟨_, hm, rfl, rfl⟩

/-- C1 counterexample: a parsed request value that is not an object — here
the parse of the payload "[]" — makes _process_rpc_req raise AttributeError
to its caller instead of returning a response mapping, refuting the claim
as stated. -/
theorem C1_counterexample_non_dict_raises :
    _process_rpc_req (fun _ _ => .ok .null) (.arr []) =
      .error "AttributeError: object has no attribute get" := rfl

/-- C2: the id field of the response equals the id field of the request in
both the success and the error branch; an absent or null request id
propagates as a null response id (dictGet models req.get, which returns
None for an absent key). -/
theorem C2_id_echo (tools : ToolImpls) (kvs : List (String × Json)) :
    ∃ out, _process_rpc_req tools (.obj kvs) = .ok out ∧
      hasKey out "id" = true ∧
      jsonIdOf out = dictGet kvs "id" := by
  rcases process_shape tools kvs with ⟨r, hr⟩ | ⟨m, hm⟩
  · exact ⟨_, hr, rfl, rfl⟩
  · exact ⟨_, hm, rfl, rfl⟩

/-- C3: every response of the processor carries exactly one of result/error,
and every error response — unknown method, unknown tool, missing parameter,
tool exception — is the uniform respErr envelope: a message string together
with available equal to the full registered tool-name list. -/
theorem C3_exactly_one_and_uniform_errors (tools : ToolImpls)
    (kvs : List (String × Json)) :
    ∃ out, _process_rpc_req tools (.obj kvs) = .ok out ∧
      (hasKey out "result" != hasKey out "error") = true ∧
      ((∃ r, out = respOk (dictGet kvs "id") r) ∨
       (∃ msg, out = respErr (dictGet kvs "id") msg ∧
          errObj out =
            Json.obj [("message", .str msg), ("available", availableJson)])) := by
  rcases process_shape tools kvs with ⟨r, hr⟩ | ⟨m, hm⟩
  · exact ⟨_, hr, rfl, Or.inl ⟨r, rfl⟩⟩
  · exact ⟨_, hm, rfl, Or.inr ⟨m, rfl, rfl⟩⟩

/-- C4: a tools.call request whose params.name is a string not registered in
TOOLS yields — without raising — the error envelope with message
"unknown tool: " followed by the name, and available equal to the
registered name list. -/
theorem C4_unknown_tool (tools : ToolImpls) (kvs : List (String × Json))
    (ps : Json) (n : String)
    (hm : dictGet kvs "method" = Json.str "tools.call")
    (hp : kvs.lookup "params" = some ps)
    (hn : pySubscript ps "name" = .ok (Json.str n))
    (hreg : TOOL_NAMES.contains n = false) :
    _process_rpc_req tools (.obj kvs) =
      .ok (respErr (dictGet kvs "id") (String.append "unknown tool: " n)) := by
  have hps : ∃ pkvs, ps = Json.obj pkvs := by
    cases ps <;> first | exact ⟨_, rfl⟩ | simp [pySubscript] at hn
  rcases hps with ⟨pkvs, rfl⟩
  have hn2 : pkvs.lookup "name" = some (Json.str n) := by
    rcases h : pkvs.lookup "name" with _ | v
    · simp [pySubscript, h] at hn
    · simp [pySubscript, h] at hn
      rw [hn]
  have hbody : rpcTryBody tools kvs (dictGet kvs "id") (Json.str "tools.call") =
      .ok (respErr (dictGet kvs "id") (String.append "unknown tool: " n)) := by
    have hreg2 : ¬ n ∈ TOOL_NAMES := by simpa using hreg
    simp [rpcTryBody, pySubscript, hp, hn2, pyGet, jsonHashable, hreg2]
  unfold _process_rpc_req
  dsimp only
  rw [hm, hbody]

/-- C4 witness at a concrete request. -/
theorem C4_unknown_tool_witness :
    _process_rpc_req (fun _ _ => .ok .null)
      (.obj [("id", .num 2), ("method", .str "tools.call"),
             ("params", .obj [("name", .str "bogus.tool")])]) =
      .ok (respErr (.num 2) "unknown tool: bogus.tool") :=
  C4_unknown_tool _ _ _ _ rfl rfl rfl rfl

/-- C5 counterexample: the single message parsing to the JSON number 5 —
valid JSON that is not an object — makes the mcp_socket loop crash (the
req.get extraction on line 68 raises AttributeError outside any try), so
the loop does not exit only on remote disconnect. -/
theorem C5_counterexample_non_object_crashes :
    mcp_socket toolsStub [WsEvent.msg (.ok (Json.num 5))] =
      ([], WsExit.crashed) := rfl

/-- C5 (amended): on the duplex transport a message that fails to parse as
JSON sends the id-null invalid json envelope and the loop continues, so a
subsequent valid object request is still processed normally, and a remote
disconnect ends the loop; however the loop does not exit only on remote
disconnect: a message parsing to a non-object JSON value raises an uncaught
AttributeError and crashes the handler. -/
theorem C5_malformed_resilience_amended (tools : ToolImpls) (e : String)
    (kvs : List (String × Json)) (j : Json) (rest : List WsEvent)
    (hj : jsonIsObj j = false) :
    (mcp_socket tools (WsEvent.msg (.error e) :: rest) =
       (invalidJsonEnv :: (mcp_socket tools rest).1,
        (mcp_socket tools rest).2)) ∧
    (∃ out, _process_rpc_req tools (.obj kvs) = .ok out ∧
       mcp_socket tools (WsEvent.msg (.ok (.obj kvs)) :: rest) =
         (ensureAvailable out :: (mcp_socket tools rest).1,
          (mcp_socket tools rest).2)) ∧
    (mcp_socket tools (WsEvent.disconnect :: rest) = ([], WsExit.disconnected)) ∧
    (mcp_socket tools (WsEvent.msg (.ok j) :: rest) = ([], WsExit.crashed)) := by
  refine ⟨rfl, ?_, rfl, ?_⟩
  · rcases process_shape tools kvs with ⟨r, hr⟩ | ⟨m, hm⟩
    · exact ⟨_, hr, by simp only [mcp_socket]; rw [hr]⟩
    · exact ⟨_, hm, by simp only [mcp_socket]; rw [hm]⟩
  · cases j <;> first | rfl | exact absurd hj (by simp [jsonIsObj])

/-- C5 witness at concrete trace elements. -/
theorem C5_malformed_resilience_witness :
    (mcp_socket toolsStub (WsEvent.msg (.error "bad") :: []) =
       (invalidJsonEnv :: (mcp_socket toolsStub []).1,
        (mcp_socket toolsStub []).2)) ∧
    (∃ out, _process_rpc_req toolsStub
         (.obj [("id", Json.num 1), ("method", Json.str "tools.list")]) =
           .ok out ∧
       mcp_socket toolsStub
         (WsEvent.msg (.ok (.obj [("id", Json.num 1),
                                  ("method", Json.str "tools.list")])) :: []) =
         (ensureAvailable out :: (mcp_socket toolsStub []).1,
          (mcp_socket toolsStub []).2)) ∧
    (mcp_socket toolsStub (WsEvent.disconnect :: []) =
       ([], WsExit.disconnected)) ∧
    (mcp_socket toolsStub (WsEvent.msg (.ok (Json.arr [])) :: []) =
       ([], WsExit.crashed)) :=
  C5_malformed_resilience_amended toolsStub "bad"
    [("id", Json.num 1), ("method", Json.str "tools.list")] (Json.arr []) [] rfl

/-- Fan-out acts on each subscriber independently: broken subscribers are
deregistered, full queues are left unchanged, all other queues receive the
event. -/
theorem ssePublish_eq (text : Json) (subs : List Subscriber) :
    ssePublish text subs =
      (subs.filter (fun s => !s.broken)).map
        (fun s => if queueFull s then s
                  else { s with queue := s.queue ++ [text] }) := by
  induction subs with
  | nil => rfl
  | cons s rest ih =>
    by_cases hb : s.broken <;> by_cases hf : queueFull s <;>
      simp [ssePublish, List.filter, hb, hf, ih]

/-- C6: publishing an object request over the stream transport returns the
processor response synchronously with status 200, and enqueues that
response onto exactly the non-broken subscriber queues that are not full;
the outcome at each subscriber is a function of its own state only, so a
full or broken queue affects neither the other subscribers nor the
synchronous response. -/
theorem C6_stream_fanout_isolated (tools : ToolImpls)
    (kvs : List (String × Json)) (subs : List Subscriber) :
    ∃ resp, _process_rpc_req tools (.obj kvs) = .ok resp ∧
      mcp_sse_post tools (.ok (.obj kvs)) subs =
        .ok ((resp, 200),
          (subs.filter (fun s => !s.broken)).map
            (fun s => if queueFull s then s
                      else { s with queue := s.queue ++ [resp] })) := by
  have hout : ∃ resp, _process_rpc_req tools (.obj kvs) = .ok resp := by
    rcases process_shape tools kvs with ⟨r, hr⟩ | ⟨m, hm⟩
    · exact ⟨_, hr⟩
    · exact ⟨_, hm⟩
  rcases hout with ⟨resp, hresp⟩
  refine ⟨resp, hresp, ?_⟩
  simp only [mcp_sse_post]
  rw [hresp]
  dsimp only
  rw [ssePublish_eq]

/-- Successful tools.call dispatch: a registered name with a tool invocation
that returns data yields the success envelope wrapping name and data. -/
theorem process_call_ok (tools : ToolImpls) (kvs : List (String × Json))
    (pkvs : List (String × Json)) (n : String) (data : Json)
    (hm : dictGet kvs "method" = Json.str "tools.call")
    (hp : kvs.lookup "params" = some (Json.obj pkvs))
    (hn : pkvs.lookup "name" = some (Json.str n))
    (hreg : TOOL_NAMES.contains n = true)
    (htool : tools n (if pyTruthy (dictGet pkvs "arguments")
                      then dictGet pkvs "arguments" else Json.obj []) =
      .ok data) :
    _process_rpc_req tools (.obj kvs) =
      .ok (respOk (dictGet kvs "id")
        (.obj [("name", Json.str n), ("data", data)])) := by
  have hbody : rpcTryBody tools kvs (dictGet kvs "id") (Json.str "tools.call") =
      .ok (respOk (dictGet kvs "id")
        (.obj [("name", Json.str n), ("data", data)])) := by
    have hreg2 : n ∈ TOOL_NAMES := by simpa using hreg
    simp [rpcTryBody, pySubscript, hp, hn, pyGet, jsonHashable, hreg2, htool]
  unfold _process_rpc_req
  dsimp only
  rw [hm, hbody]

/-- C7: a tools.call of proc.top with a limit argument L, L a positive
integer, succeeds with a result wrapping the tool name and a data list that
holds at most L records, each an object with exactly the keys pid, name,
mem_pct, cpu_pct, cmd. -/
theorem C7_proc_top_limit (snapshot : List (Option RawProc))
    (other : ToolImpls) (idv : Json) (L : Int) (hL : 0 < L) :
    ∃ ds : List Json,
      _process_rpc_req (TOOLS snapshot other)
        (.obj [("id", idv), ("method", .str "tools.call"),
               ("params", .obj [("name", .str "proc.top"),
                                ("arguments",
                                 .obj [("limit", .num (L : Rat))])])]) =
        .ok (respOk idv
          (.obj [("name", .str "proc.top"), ("data", .arr ds)])) ∧
      ds.length ≤ L.toNat ∧
      ∀ r ∈ ds, jsonKeys r = ["pid", "name", "mem_pct", "cpu_pct", "cmd"] := by
  have hTr : pyTruthy (Json.num (L : Rat)) = true := by
    simp [pyTruthy, bne]
    exact_mod_cast hL.ne.symm
  have hInt : pyInt (Json.num (L : Rat)) = .ok L := by
    simp [pyInt, Rat.intCast_num, Rat.intCast_den, Int.tdiv_one]
  have htool : TOOLS snapshot other "proc.top"
      (if pyTruthy (dictGet
            [("name", Json.str "proc.top"),
             ("arguments", Json.obj [("limit", Json.num (L : Rat))])]
            "arguments")
       then dictGet
            [("name", Json.str "proc.top"),
             ("arguments", Json.obj [("limit", Json.num (L : Rat))])]
            "arguments"
       else Json.obj []) =
      .ok (Json.arr ((top_procs snapshot L).map ProcInfo.toJson)) := by
    simp [TOOLS, procTopTool, pyGet, dictGet, List.lookup, pyTruthy, hTr, hInt]
    rw [if_neg hL.ne', hInt]
  refine ⟨(top_procs snapshot L).map ProcInfo.toJson,
    process_call_ok _ _ _ _ _ rfl rfl rfl rfl htool, ?_, ?_⟩
  · rw [List.length_map]
    unfold top_procs pySliceTo
    rw [if_pos hL.le]
    exact List.length_take_le _ _
  · intro r hr
    rcases List.mem_map.1 hr with ⟨p, _, rfl⟩
    rfl

/-- C7 witness at the empty snapshot with limit 1. -/
theorem C7_proc_top_limit_witness :
    ∃ ds : List Json,
      _process_rpc_req (TOOLS [] toolsStub)
        (.obj [("id", .num 1), ("method", .str "tools.call"),
               ("params", .obj [("name", .str "proc.top"),
                                ("arguments",
                                 .obj [("limit",
                                        .num ((1 : Int) : Rat))])])]) =
        .ok (respOk (.num 1)
          (.obj [("name", .str "proc.top"), ("data", .arr ds)])) ∧
      ds.length ≤ (1 : Int).toNat ∧
      ∀ r ∈ ds, jsonKeys r = ["pid", "name", "mem_pct", "cpu_pct", "cmd"] :=
  C7_proc_top_limit [] toolsStub (.num 1) 1 (by decide)

/-- C10: the list returned by top_procs is sorted in non-increasing order of
mem_pct with ties broken by non-increasing cpu_pct (the pairwise relation is
the boolean sort key comparison). -/
theorem C10_top_procs_sorted (snapshot : List (Option RawProc))
    (limit : Int) :
    (top_procs snapshot limit).Pairwise
      (fun a b => procKeyLE a b = true) := by
  have htrans : ∀ (a b c : ProcInfo),
      procKeyLE a b → procKeyLE b c → procKeyLE a c := by
    intro a b c hab hbc
    simp only [procKeyLE, Bool.or_eq_true, Bool.and_eq_true,
      decide_eq_true_eq] at hab hbc ⊢
    rcases hab with h1 | ⟨h1, h2⟩ <;> rcases hbc with h3 | ⟨h3, h4⟩
    · exact Or.inl (h3.trans h1)
    · exact Or.inl (by rw [← h3]; exact h1)
    · exact Or.inl (by rw [h1]; exact h3)
    · exact Or.inr ⟨h1.trans h3, h4.trans h2⟩
  have htotal : ∀ (a b : ProcInfo), procKeyLE a b || procKeyLE b a := by
    intro a b
    simp only [procKeyLE, Bool.or_eq_true, Bool.and_eq_true,
      decide_eq_true_eq]
    rcases lt_trichotomy a.mem_pct b.mem_pct with h | h | h
    · exact Or.inr (Or.inl h)
    · rcases le_total b.cpu_pct a.cpu_pct with hc | hc
      · exact Or.inl (Or.inr ⟨h, hc⟩)
      · exact Or.inr (Or.inr ⟨h.symm, hc⟩)
    · exact Or.inl (Or.inl h)
  have hsorted := List.sorted_mergeSort htrans htotal
    (snapshot.filterMap (fun o => o.map mkProcInfo))
  unfold top_procs pySliceTo
  split
  · exact hsorted.sublist (List.take_sublist _ _)
  · exact hsorted.sublist (List.take_sublist _ _)

theorem dropWhile_dropWhile (p : α → Bool) (l : List α) :
    (l.dropWhile p).dropWhile p = l.dropWhile p := by
  induction l with
  | nil => rfl
  | cons a l ih =>
    by_cases h : p a
    · simp [List.dropWhile_cons, h, ih]
    · simp [List.dropWhile_cons, h]

theorem rdropW_append_pos (p : α → Bool) (a : α) (h : p a = true)
    (y : List α) : rdropW p (y ++ [a]) = rdropW p y := by
  simp [rdropW, List.dropWhile_cons, h]

theorem rdropW_append_neg (p : α → Bool) (a : α) (h : p a = false)
    (y : List α) : rdropW p (y ++ [a]) = y ++ [a] := by
  simp [rdropW, List.dropWhile_cons, h]

theorem rdropW_rdropW (p : α → Bool) (l : List α) :
    rdropW p (rdropW p l) = rdropW p l := by
  simp [rdropW, dropWhile_dropWhile]

theorem dropWhile_rdropW (p : α → Bool) (y : List α)
    (h : y.dropWhile p = y) : (rdropW p y).dropWhile p = rdropW p y := by
  induction y using List.reverseRecOn with
  | nil => rfl
  | append_singleton y a ih =>
    by_cases ha : p a
    · rw [rdropW_append_pos p a ha]
      apply ih
      rw [List.dropWhile_append] at h
      split at h
      · simp [List.dropWhile_cons, ha] at h
      · exact List.append_cancel_right h
    · rw [rdropW_append_neg p a (by simpa using ha)]
      exact h

theorem pyStrip_idem (cs : List Char) : pyStrip (pyStrip cs) = pyStrip cs := by
  have h1 : (pyStrip cs).dropWhile pyIsSpace = pyStrip cs :=
    dropWhile_rdropW pyIsSpace _ (dropWhile_dropWhile pyIsSpace cs)
  show rdropW pyIsSpace ((pyStrip cs).dropWhile pyIsSpace) = pyStrip cs
  rw [h1]
  show rdropW pyIsSpace (rdropW pyIsSpace (cs.dropWhile pyIsSpace)) = _
  rw [rdropW_rdropW]
  rfl

/-- C8: _sanitize_min_size returns the stripped input exactly when that
stripped input matches the optional-plus digits optional-unit pattern, and
"+200M" otherwise; consequently its output always matches the pattern and
the function is idempotent. -/
theorem C8_sanitize_min_size (s : String) :
    (_sanitize_min_size s =
       if matchesMinSize (pyStrip s.data) then String.mk (pyStrip s.data)
       else "+200M") ∧
    matchesMinSize (_sanitize_min_size s).data = true ∧
    _sanitize_min_size (_sanitize_min_size s) = _sanitize_min_size s := by
  refine ⟨rfl, ?_, ?_⟩
  · unfold _sanitize_min_size
    dsimp only
    by_cases h : matchesMinSize (pyStrip s.data)
    · rw [if_pos h]
      exact h
    · rw [if_neg h]
      decide
  · unfold _sanitize_min_size
    dsimp only
    by_cases h : matchesMinSize (pyStrip s.data)
    · rw [if_pos h]
      show (if matchesMinSize (pyStrip (pyStrip s.data))
            then String.mk (pyStrip (pyStrip s.data)) else "+200M") =
          String.mk (pyStrip s.data)
      rw [pyStrip_idem, if_pos h]
    · rw [if_neg h]
      decide

/-- C9: whenever the expanded path is not a directory, bigfiles returns the
empty list and issues no shell command, whatever min_size and limit are. -/
theorem C9_bigfiles_non_directory (env : FsEnv) (path min_size : String)
    (limit : Int) (h : env.isdir (env.expand path) = false) :
    bigfiles env path min_size limit = (.ok [], []) := by
  unfold bigfiles
  simp [h]

/-- C9 witness on a concrete environment with no directories. -/
theorem C9_bigfiles_non_directory_witness :
    (FsEnv.mk id (fun _ => false) (fun _ => .ok "")).isdir
        ((FsEnv.mk id (fun _ => false) (fun _ => .ok "")).expand "/nope") =
      false ∧
    bigfiles (FsEnv.mk id (fun _ => false) (fun _ => .ok ""))
        "/nope" "bogus-size" 17 = (.ok [], []) :=
  ⟨rfl, C9_bigfiles_non_directory _ "/nope" "bogus-size" 17 rfl⟩

end McpServer
